import Mathlib

/-!
# Verification of the predictive-maintenance agent orchestrator

Shallow embedding of `src/predictive_maintenance_agent/orchestrator.py`
(together with the fixed collaborator responses of
`src/predictive_maintenance_agent/mock_api.py` and the data tables emitted by
`src/predictive_maintenance_agent/generate_data.py`), and proofs about the
UEBA access-control layer, the decision router, the diagnosis scoring step,
the scheduling node and the feedback node.

Conventions of the embedding:
* Python dicts keyed by strings become association lists (`List (String × _)`);
  `dict.get(k, d)` becomes `(l.lookup k).getD d`.
* A raised `PermissionError` becomes the `Except.error` branch of an
  `Except PermissionErr _` value; `try/except` becomes a `match`.
* Python floats in the DRPS formula are modelled as exact rationals.  The only
  float expression is `(0.92 * 10) * 3 ≈ 27.6`; IEEE double rounding keeps it
  strictly inside the open interval (27, 28), so the truncation to an integer
  agrees with the exact rational computation used here.
* `int(x)` (Python truncation toward zero) is modelled by `int_trunc`.
-/

namespace Orchestrator

/-- orchestrator.py lines 34-40: the static role → allowed-tool table.
`get_payment_history` is deliberately absent from `SchedulingAgent`. -/
def ALLOWED_TOOLS : List (String × List String) :=
  [("DataAnalysisAgent", ["read_csv"]),
   ("DiagnosisAgent", ["read_csv", "llm_invoke"]),
   ("CustomerEngagementAgent", ["llm_invoke"]),
   ("SchedulingAgent", ["get_service_slots", "book_appointment"]),
   ("FeedbackAgent", ["read_csv", "write_csv", "llm_invoke"])]

/-- The payload of the `PermissionError` raised by the UEBA wrapper
(orchestrator.py line 49): it names the agent role and the tool. -/
structure PermissionErr where
  agent_name : String
  tool_name : String
deriving DecidableEq

/-- The message string of the raised `PermissionError`
(orchestrator.py line 49). -/
def PermissionErr.message (e : PermissionErr) : String :=
  "Unauthorized access attempt by " ++ e.agent_name ++ " on tool " ++ e.tool_name

/-- spec §4.1: `permits(role, capability)`.  In orchestrator.py line 44 this
check is inlined in the wrapper as
`tool_name in ALLOWED_TOOLS.get(agent_name, [])`. -/
def permits (role capability : String) : Bool :=
  ((ALLOWED_TOOLS.lookup role).getD []).contains capability

/-- orchestrator.py lines 42-49: `ueba_security_wrapper`.  If the tool is in
the role's allow-list the wrapped callable runs and its result is returned
unchanged; otherwise a `PermissionError` naming role and tool is raised and
the callable is not run. -/
def ueba_security_wrapper {α β : Type} (agent_name tool_name : String)
    (func : α → β) (arg : α) : Except PermissionErr β :=
  if ((ALLOWED_TOOLS.lookup agent_name).getD []).contains tool_name then
    .ok (func arg)
  else
    .error { agent_name := agent_name, tool_name := tool_name }

/-- orchestrator.py lines 17-30: the anomaly record carried in
`state['anomaly_data']` (the two fields the nodes actually read). -/
structure AnomalyData where
  brake_fluid_pressure_psi : ℚ
  brake_pad_thickness_mm : ℚ
deriving DecidableEq

/-- orchestrator.py lines 17-30: `WorkflowState`. -/
structure WorkflowState where
  vehicle_id : String
  customer_id : String
  anomaly_data : AnomalyData
  anomaly_details : String
  diagnosis : String
  drps_score : Int
  xai_explanation : String
  customer_response : String
  customer_name : String
  appointment_slot : String
  booking_status : String
  final_insight : String
  error_message : String
deriving DecidableEq

/-- An all-empty state, used to build concrete test states. -/
def emptyState : WorkflowState :=
  { vehicle_id := "", customer_id := "", anomaly_data := ⟨0, 0⟩,
    anomaly_details := "", diagnosis := "", drps_score := 0,
    xai_explanation := "", customer_response := "", customer_name := "",
    appointment_slot := "", booking_status := "", final_insight := "",
    error_message := "" }

/-- orchestrator.py lines 252-264: `should_schedule`.  Returns the outcome
label and the state as left by the function (the source mutates
`state['customer_response']` in both branches). -/
def should_schedule (state : WorkflowState) : String × WorkflowState :=
  if state.drps_score > 80 then
    ("continue_to_scheduling", { state with customer_response := "yes" })
  else
    ("handle_decline", { state with customer_response := "no" })

/-- orchestrator.py lines 284-298: the graph edges.  `customer_engagement`
routes through `should_schedule`; every other node has one unconditional
successor; `"END"` marks the terminal. -/
def next_node (node : String) (state : WorkflowState) : Option String :=
  if node = "data_analysis" then some "diagnosis"
  else if node = "diagnosis" then some "customer_engagement"
  else if node = "customer_engagement" then
    (if (should_schedule state).1 = "continue_to_scheduling" then some "scheduling"
     else if (should_schedule state).1 = "handle_decline" then some "handle_decline"
     else none)
  else if node = "scheduling" then some "feedback_and_insight"
  else if node = "feedback_and_insight" then some "END"
  else if node = "handle_decline" then some "END"
  else none

/-! ## Diagnosis scoring (orchestrator.py lines 64-99) -/

/-- generate_data.py "Safety Impact Scores": the contents of
`data/safety_impact_scores.csv` that `get_diagnosis_and_drps` loads from disk
(component name → `safety_impact_score`). -/
def safety_impact_scores : List (String × Int) :=
  [("Brakes", 10), ("Engine", 9), ("Transmission", 8), ("Steering", 9),
   ("Suspension", 7), ("Tires", 8), ("AC System", 3), ("Infotainment", 1)]

/-- orchestrator.py line 72: `valid_components = safety_df.index.tolist()`. -/
def valid_components : List String := safety_impact_scores.map Prod.fst

/-- orchestrator.py line 86: `failure_risk_prob = 0.92` (hardcoded for demo). -/
def failure_risk_prob : ℚ := 92 / 100

/-- Python `int(x)`: truncation toward zero. -/
def int_trunc (q : ℚ) : Int := if q < 0 then ⌈q⌉ else ⌊q⌋

/-- orchestrator.py line 95: `9 if profile['driving_style'] == 'Highway' else 5`. -/
def customer_factor_of (driving_style : String) : Int :=
  if driving_style = "Highway" then 9 else 5

/-- orchestrator.py lines 96-97: the composite DRPS from the safety-impact
sub-score and the customer-context sub-score, with
`failure_risk_score = failure_risk_prob * 10` held at its hardcoded value:
`int((safety_score * 5) + (failure_risk_score * 3) + (customer_factor * 2))`. -/
def drps_value (safety_score customer_factor : Int) : Int :=
  int_trunc ((safety_score : ℚ) * 5 + (failure_risk_prob * 10) * 3
    + (customer_factor : ℚ) * 2)

/-- orchestrator.py lines 64-99: `get_diagnosis_and_drps`, as a function of the
classifier's (LLM's) stripped reply and the customer row's `driving_style`
(the CSV loads of lines 67-68 are modelled by `safety_impact_scores` and by
passing the looked-up profile's driving style). -/
def get_diagnosis_and_drps (predicted_component driving_style : String) :
    String × Int :=
  let predicted := if predicted_component ∈ valid_components
    then predicted_component else "Brakes"
  let safety_score : Int := (safety_impact_scores.lookup predicted).getD 0
  let customer_factor := customer_factor_of driving_style
  (predicted, drps_value safety_score customer_factor)

/-- orchestrator.py lines 192-199: `diagnosis_node` runs
`get_diagnosis_and_drps` through the UEBA wrapper under role `DiagnosisAgent`,
tool `llm_invoke`, and writes diagnosis and score into the state. -/
def diagnosis_node (predicted_component driving_style : String)
    (state : WorkflowState) : Except PermissionErr WorkflowState :=
  match ueba_security_wrapper "DiagnosisAgent" "llm_invoke"
      (fun p => get_diagnosis_and_drps p.1 p.2)
      (predicted_component, driving_style) with
  | .error e => .error e
  | .ok (diagnosis, drps) =>
      .ok { state with diagnosis := diagnosis, drps_score := drps }

/-! ## Scheduling node (orchestrator.py lines 223-242, mock_api.py) -/

/-- mock_api.py `get_available_slots`: the scheduling backend's fixed
response, fetched by orchestrator.py `get_service_slots` (lines 130-133). -/
def get_service_slots : List String :=
  ["09:00 AM", "11:00 AM", "02:00 PM", "04:00 PM"]

/-- mock_api.py `book_appointment`: the backend always answers
`{"status": "confirmed", ...}`; orchestrator.py `book_appointment`
(lines 135-139) posts and returns that JSON, of which the node reads only
`['status']`. -/
def book_appointment (vehicle_id slot : String) : String :=
  "confirmed"

/-- Failures a node run can end in: an uncaught `PermissionError`, or a
Python `IndexError` (from `slots[1]`). -/
inductive RunError where
  | permission (e : PermissionErr)
  | indexError
deriving DecidableEq

/-- orchestrator.py lines 223-242: `scheduling_node`.  It first makes a
deliberate out-of-policy wrapper call (`get_payment_history`), catches the
`PermissionError` and stores `str(e)` in `state['error_message']`; then it
fetches slots, picks `slots[1]`, and books it. -/
def scheduling_node (state : WorkflowState) : Except RunError WorkflowState :=
  let state :=
    match ueba_security_wrapper "SchedulingAgent" "get_payment_history"
        (fun _ => "this should fail") () with
    | .ok _ => state
    | .error e => { state with error_message := e.message }
  match ueba_security_wrapper "SchedulingAgent" "get_service_slots"
      (fun _ => get_service_slots) () with
  | .error e => .error (.permission e)
  | .ok slots =>
    match slots.get? 1 with
    | none => .error .indexError
    | some chosen_slot =>
      let state := { state with appointment_slot := chosen_slot }
      match ueba_security_wrapper "SchedulingAgent" "book_appointment"
          (fun p => book_appointment p.1 p.2) (state.vehicle_id, chosen_slot) with
      | .error e => .error (.permission e)
      | .ok booking_status => .ok { state with booking_status := booking_status }

/-! ## Feedback node (orchestrator.py lines 141-163, 266-272) -/

/-- One row of `data/maintenance_logs.csv` (generate_data.py
"Maintenance Logs"): `dtc_code_at_service` is nullable. -/
structure MaintenanceRecord where
  record_id : Nat
  vehicle_id : String
  dtc_code_at_service : Option String
deriving DecidableEq

/-- The maintenance logs generate_data.py writes to
`data/maintenance_logs.csv` (only the fields the orchestrator reads). -/
def generated_maintenance_logs : List MaintenanceRecord :=
  [{ record_id := 1, vehicle_id := "veh_003", dtc_code_at_service := none },
   { record_id := 2, vehicle_id := "veh_007", dtc_code_at_service := none },
   { record_id := 3, vehicle_id := "veh_009", dtc_code_at_service := some "C0204" }]

/-- orchestrator.py line 151: the recurrence count is the number of
maintenance rows whose `dtc_code_at_service` equals the fixed literal
`'C0204'` — the current run's diagnosis is not consulted. -/
def recurrence_count_of (maintenance : List MaintenanceRecord) : Nat :=
  (maintenance.filter (fun r => r.dtc_code_at_service = some "C0204")).length

/-- orchestrator.py lines 141-163: `perform_rca_and_update_score`, as a
function of the first RCA row's id, the maintenance logs and the customer
row's current `health_score` (the CSV reads of lines 145-147 and the
write-back of line 161 are modelled by these parameters and the returned
score). -/
def perform_rca_and_update_score (rca_first_id : String)
    (maintenance : List MaintenanceRecord) (current_score : Int) :
    String × Int :=
  let recurrence_count := recurrence_count_of maintenance
  let insight := "Failure linked to " ++ rca_first_id ++ ". This is the **"
    ++ toString (recurrence_count + 1)
    ++ "th instance** of this defect recorded across the fleet. Recommend escalating for quality review."
  let new_score := current_score + 50
  (insight, new_score)

/-- orchestrator.py lines 266-272: `feedback_and_insight_node` runs
`perform_rca_and_update_score` through the UEBA wrapper under role
`FeedbackAgent`, tool `read_csv`, and writes the insight into
`state['final_insight']`; the new score is only printed and persisted. -/
def feedback_and_insight_node (rca_first_id : String)
    (maintenance : List MaintenanceRecord) (current_score : Int)
    (state : WorkflowState) : Except PermissionErr (WorkflowState × Int) :=
  match ueba_security_wrapper "FeedbackAgent" "read_csv"
      (fun _ => perform_rca_and_update_score rca_first_id maintenance current_score)
      () with
  | .error e => .error e
  | .ok (insight, new_score) =>
      .ok ({ state with final_insight := insight }, new_score)

/-! ## Capability-call structure of the agent nodes (orchestrator.py lines 56-272)

A static transcription of every primitive capability use (pandas `read_csv` /
`to_csv`, `requests.get`/`requests.post`, `llm.invoke`) reachable from each
node body, recording whether the call site executes inside a callable that the
node passed to `ueba_security_wrapper` (and, when it does, under which role
and tool name) or runs directly in the node body. -/

/-- The kinds of primitive external capability uses in the source. -/
inductive CapKind where
  | read_csv
  | write_csv
  | http_get
  | http_post
  | llm_invoke
deriving DecidableEq

/-- One primitive capability use: its kind, its target (file, URL or model),
and whether/how it is routed through `ueba_security_wrapper`. -/
structure CapCall where
  kind : CapKind
  target : String
  viaWrapper : Bool
  role : String
  tool : String
deriving DecidableEq

/-- A capability use inside a callable run via the wrapper under `r`/`t`. -/
def wrappedCall (r t : String) (k : CapKind) (tgt : String) : CapCall :=
  { kind := k, target := tgt, viaWrapper := true, role := r, tool := t }

/-- A capability use performed directly in a node body, not via the wrapper. -/
def directCall (k : CapKind) (tgt : String) : CapCall :=
  { kind := k, target := tgt, viaWrapper := false, role := "", tool := "" }

/-- The node names registered on the graph (orchestrator.py lines 277-282). -/
def workflow_node_names : List String :=
  ["data_analysis", "diagnosis", "customer_engagement", "scheduling",
   "handle_decline", "feedback_and_insight"]

/-- The role each node passes to the wrapper for its capability calls. -/
def role_of (node : String) : String :=
  if node = "data_analysis" then "DataAnalysisAgent"
  else if node = "diagnosis" then "DiagnosisAgent"
  else if node = "customer_engagement" then "CustomerEngagementAgent"
  else if node = "scheduling" then "SchedulingAgent"
  else if node = "feedback_and_insight" then "FeedbackAgent"
  else ""

/-- The capability uses each node body performs, in source order.
* `data_analysis` (lines 169-187): `analyze_telemetry_data` (one `read_csv`,
  line 58) via the wrapper, then a direct `pd.read_csv` of
  `data/customer_profiles.csv` at line 175, outside any wrapper call.
* `diagnosis` (lines 192-199): `get_diagnosis_and_drps` via the wrapper
  (two `read_csv` at lines 67-68 and one `llm.invoke` at line 81).
* `customer_engagement` (lines 201-221): `generate_xai_customer_message` via
  the wrapper (`llm.invoke`, line 128).
* `scheduling` (lines 223-242): the denied `get_payment_history` wrapper call
  executes no capability (its lambda performs none and the wrapper denies);
  then `get_service_slots` (HTTP GET, line 132) and `book_appointment`
  (HTTP POST, line 138) via the wrapper.
* `handle_decline` (lines 244-249): no capability use.
* `feedback_and_insight` (lines 266-272): `perform_rca_and_update_score` via
  the wrapper (three `read_csv` at lines 145-147, one `to_csv` at line 161). -/
def node_trace (node : String) : List CapCall :=
  if node = "data_analysis" then
    [wrappedCall "DataAnalysisAgent" "read_csv" .read_csv "data/vehicle_telematics.csv",
     directCall .read_csv "data/customer_profiles.csv"]
  else if node = "diagnosis" then
    [wrappedCall "DiagnosisAgent" "llm_invoke" .read_csv "data/safety_impact_scores.csv",
     wrappedCall "DiagnosisAgent" "llm_invoke" .read_csv "data/customer_profiles.csv",
     wrappedCall "DiagnosisAgent" "llm_invoke" .llm_invoke "gemini-pro-latest"]
  else if node = "customer_engagement" then
    [wrappedCall "CustomerEngagementAgent" "llm_invoke" .llm_invoke "gemini-pro-latest"]
  else if node = "scheduling" then
    [wrappedCall "SchedulingAgent" "get_service_slots" .http_get "http://127.0.0.1:8000/scheduler/get_slots",
     wrappedCall "SchedulingAgent" "book_appointment" .http_post "http://127.0.0.1:8000/scheduler/book_slot"]
  else if node = "feedback_and_insight" then
    [wrappedCall "FeedbackAgent" "read_csv" .read_csv "data/rca_records.csv",
     wrappedCall "FeedbackAgent" "read_csv" .read_csv "data/maintenance_logs.csv",
     wrappedCall "FeedbackAgent" "read_csv" .read_csv "data/customer_profiles.csv",
     wrappedCall "FeedbackAgent" "read_csv" .write_csv "data/customer_profiles.csv"]
  else []

/-- The recurrence count as the specification describes it: the number of
prior maintenance records whose failure code matches the diagnosed failure
code of the current run.  Stated from the spec's words, for comparison with
the source's `recurrence_count_of`. -/
def claimed_recurrence_count (diagnosed_code : String)
    (maintenance : List MaintenanceRecord) : Nat :=
  (maintenance.filter (fun r => r.dtc_code_at_service = some diagnosed_code)).length

/-- A concrete probe state for the router: score above the threshold, the
simulated customer response not yet set to the value the router writes. -/
def routerProbeState : WorkflowState :=
  { emptyState with drps_score := 81, customer_response := "no" }

/-! ## Theorems -/

/-- Truncation toward zero is monotone. -/
theorem int_trunc_mono {a b : ℚ} (h : a ≤ b) : int_trunc a ≤ int_trunc b := by
  unfold int_trunc
  by_cases ha : a < 0
  · by_cases hb : b < 0
    · rw [if_pos ha, if_pos hb]; exact Int.ceil_le_ceil h
    · rw [if_pos ha, if_neg hb]
      exact le_trans (Int.ceil_le.mpr (by exact_mod_cast ha.le))
        (Int.floor_nonneg.mpr (not_lt.mp hb))
  · by_cases hb : b < 0
    · exact absurd (lt_of_le_of_lt h hb) ha
    · rw [if_neg ha, if_neg hb]; exact Int.floor_le_floor h

/-- C1: `ueba_security_wrapper r t f a` runs `f a` and returns its result
unchanged exactly when `t` is in `r`'s allow-list; otherwise it raises a
`PermissionError` naming both `r` and `t`, and the result does not depend on
`f` (the callable is never consulted). -/
theorem C1_ueba_wrapper_gates {α β : Type} (r t : String) (f : α → β) (a : α) :
    (ueba_security_wrapper r t f a = .ok (f a) ↔ permits r t = true)
    ∧ (permits r t = false →
        ueba_security_wrapper r t f a =
          .error { agent_name := r, tool_name := t }
        ∧ ∀ g : α → β,
            ueba_security_wrapper r t g a = ueba_security_wrapper r t f a) := by
  unfold ueba_security_wrapper permits
  by_cases hm : t ∈ (ALLOWED_TOOLS.lookup r).getD [] <;> simp [hm]

/-- C1 witness: at role `SchedulingAgent` and tool `get_payment_history` the
wrapper denies and raises the error naming both. -/
theorem C1_ueba_wrapper_gates_witness :
    permits "SchedulingAgent" "get_payment_history" = false
    ∧ ueba_security_wrapper "SchedulingAgent" "get_payment_history"
        (fun n : Nat => n + 1) 0 =
        .error { agent_name := "SchedulingAgent",
                 tool_name := "get_payment_history" } :=
  ⟨by decide,
   ((C1_ueba_wrapper_gates "SchedulingAgent" "get_payment_history"
      (fun n : Nat => n + 1) 0).2 (by decide)).1⟩

/-- C2: `permits` returns exactly the statically configured membership of
`ALLOWED_TOOLS`, and a role absent from the table is denied every
capability (default deny). -/
theorem C2_permits_is_static_membership (r c : String) :
    (permits r c = true ↔
      ∃ tools, ALLOWED_TOOLS.lookup r = some tools ∧ c ∈ tools)
    ∧ (ALLOWED_TOOLS.lookup r = none → permits r c = false) := by
  unfold permits
  cases h : ALLOWED_TOOLS.lookup r with
  | none => simp
  | some tools => simp

/-- C2 witness: a role absent from the table is denied a capability that
other roles do hold. -/
theorem C2_permits_is_static_membership_witness :
    ALLOWED_TOOLS.lookup "UnknownRole" = none
    ∧ permits "UnknownRole" "read_csv" = false :=
  ⟨by decide,
   (C2_permits_is_static_membership "UnknownRole" "read_csv").2 (by decide)⟩

/-- C4: the router returns `"continue_to_scheduling"` exactly when
`drps_score > 80` and `"handle_decline"` otherwise; in particular it
continues at 81 and declines at 80. -/
theorem C4_router_boundary (s : WorkflowState) :
    ((should_schedule s).1 = "continue_to_scheduling" ↔ s.drps_score > 80)
    ∧ ((should_schedule s).1 = "handle_decline" ↔ ¬ s.drps_score > 80)
    ∧ (should_schedule { emptyState with drps_score := 81 }).1
        = "continue_to_scheduling"
    ∧ (should_schedule { emptyState with drps_score := 80 }).1
        = "handle_decline" := by
  refine ⟨?_, ?_, by decide, by decide⟩ <;>
    · unfold should_schedule
      by_cases h : s.drps_score > 80 <;> simp [h]

/-- C7 counterexample: `should_schedule` does not leave the state unchanged —
on a state with score 81 and `customer_response = "no"` it rewrites
`customer_response`. -/
theorem C7_counterexample :
    (should_schedule routerProbeState).2 ≠ routerProbeState := by
  decide

/-- C7 amended: `should_schedule` mutates exactly one field — it writes the
simulated `customer_response` (`"yes"` above the threshold, `"no"`
otherwise) — and leaves every other field of the state unchanged. -/
theorem C7_router_mutates_only_customer_response (s : WorkflowState) :
    (should_schedule s).2 =
      { s with customer_response :=
          if s.drps_score > 80 then "yes" else "no" } := by
  unfold should_schedule
  by_cases h : s.drps_score > 80 <;> simp [h]

/-- C3 counterexample: it is not the case that every capability use of every
agent node goes through the UEBA wrapper — `data_analysis_node` reads
`data/customer_profiles.csv` directly in its body (orchestrator.py
line 175). -/
theorem C3_counterexample :
    (workflow_node_names.all
      (fun n => (node_trace n).all (fun e => e.viaWrapper))) = false := by
  decide

/-- C3 amended: every capability use of every agent node is routed through
`ueba_security_wrapper` under that node's role, except the single direct
read of `data/customer_profiles.csv` in `data_analysis_node`'s body. -/
theorem C3_wrapper_routing_single_bypass :
    (workflow_node_names.all (fun n => (node_trace n).all (fun e =>
      (e.viaWrapper && e.role == role_of n)
      || ((n == "data_analysis") && (!e.viaWrapper)
          && (e.kind == CapKind.read_csv)
          && (e.target == "data/customer_profiles.csv"))))) = true := by
  decide

/-- C5: on every state, the scheduling node's deliberate out-of-policy
`get_payment_history` call is denied, the node catches the error and records
its message in `error_message`, then completes its authorized calls (slot
`slots[1]`, booking confirmed) and returns normally; the graph then continues
from `scheduling` to `feedback_and_insight` and on to the terminal. -/
theorem C5_scheduling_node_recovers (s : WorkflowState) :
    permits "SchedulingAgent" "get_payment_history" = false
    ∧ scheduling_node s =
        .ok { s with
          error_message :=
            "Unauthorized access attempt by SchedulingAgent on tool get_payment_history",
          appointment_slot := "11:00 AM",
          booking_status := "confirmed" }
    ∧ next_node "scheduling" s = some "feedback_and_insight"
    ∧ next_node "feedback_and_insight" s = some "END" := by
  exact ⟨by decide, rfl, rfl, rfl⟩

/-- C6: the category the diagnosis step returns (and the diagnosis node
writes into the state) is always in the valid-component set; when the
classifier's reply is not in that set, the default `"Brakes"` is
substituted. -/
theorem C6_invalid_category_defaults (predicted driving : String)
    (s : WorkflowState) :
    (get_diagnosis_and_drps predicted driving).1 ∈ valid_components
    ∧ (predicted ∉ valid_components →
        (get_diagnosis_and_drps predicted driving).1 = "Brakes")
    ∧ diagnosis_node predicted driving s =
        .ok { s with
          diagnosis := (get_diagnosis_and_drps predicted driving).1,
          drps_score := (get_diagnosis_and_drps predicted driving).2 } := by
  refine ⟨?_, ?_, rfl⟩
  · by_cases hp : predicted ∈ valid_components <;>
      simp [get_diagnosis_and_drps, hp]
    decide
  · intro hp
    simp [get_diagnosis_and_drps, hp]

/-- C6 witness: a reply outside the valid set is replaced by `"Brakes"`. -/
theorem C6_invalid_category_defaults_witness :
    "Flux Capacitor" ∉ valid_components
    ∧ (get_diagnosis_and_drps "Flux Capacitor" "City").1 = "Brakes" :=
  ⟨by decide,
   (C6_invalid_category_defaults "Flux Capacitor" "City" emptyState).2.1
     (by decide)⟩

/-- C8: with the failure-risk sub-score fixed at its hardcoded value and the
customer-context sub-score held fixed, the composite DRPS is monotonically
non-decreasing in the safety (severity) sub-score. -/
theorem C8_drps_monotone_in_severity (s1 s2 cf : Int) (h : s1 ≤ s2) :
    drps_value s1 cf ≤ drps_value s2 cf := by
  unfold drps_value
  apply int_trunc_mono
  have hs : (s1 : ℚ) ≤ (s2 : ℚ) := by exact_mod_cast h
  linarith

/-- C8 witness: at severity 1 versus 10 with context sub-score 5. -/
theorem C8_drps_monotone_in_severity_witness :
    (1 : Int) ≤ 10 ∧ drps_value 1 5 ≤ drps_value 10 5 :=
  ⟨by decide, C8_drps_monotone_in_severity 1 10 5 (by decide)⟩

/-- The safety-impact table only holds scores between 1 and 10. -/
theorem safety_score_bounds (c : String) (hc : c ∈ valid_components) :
    1 ≤ (safety_impact_scores.lookup c).getD 0
    ∧ (safety_impact_scores.lookup c).getD 0 ≤ 10 := by
  simp [valid_components, safety_impact_scores] at hc
  rcases hc with rfl | rfl | rfl | rfl | rfl | rfl | rfl | rfl <;> decide

/-- The DRPS formula stays within 0..100 for table safety scores and the two
possible customer factors. -/
theorem drps_value_bounds (s cf : Int) (h1 : 1 ≤ s) (h2 : s ≤ 10)
    (h3 : 5 ≤ cf) (h4 : cf ≤ 9) :
    0 ≤ drps_value s cf ∧ drps_value s cf ≤ 100 := by
  unfold drps_value failure_risk_prob int_trunc
  have hq : (0 : ℚ) ≤ (s : ℚ) * 5 + (92 / 100 * 10) * 3 + (cf : ℚ) * 2 := by
    have hs : (1 : ℚ) ≤ (s : ℚ) := by exact_mod_cast h1
    have hc : (5 : ℚ) ≤ (cf : ℚ) := by exact_mod_cast h3
    linarith
  rw [if_neg (not_lt.mpr hq)]
  constructor
  · exact Int.le_floor.mpr (by exact_mod_cast hq)
  · have hlt : (s : ℚ) * 5 + (92 / 100 * 10) * 3 + (cf : ℚ) * 2
        < ((101 : Int) : ℚ) := by
      have hs : (s : ℚ) ≤ 10 := by exact_mod_cast h2
      have hc : (cf : ℚ) ≤ 9 := by exact_mod_cast h4
      push_cast
      linarith
    have := Int.floor_lt.mpr hlt
    omega

/-- C9: for every classifier reply and every driving style, the DRPS the
diagnosis step returns lies between 0 and 100 inclusive. -/
theorem C9_drps_in_range (predicted driving : String) :
    0 ≤ (get_diagnosis_and_drps predicted driving).2
    ∧ (get_diagnosis_and_drps predicted driving).2 ≤ 100 := by
  have hcf : 5 ≤ customer_factor_of driving ∧ customer_factor_of driving ≤ 9 := by
    unfold customer_factor_of
    by_cases hd : driving = "Highway" <;> simp [hd]
  by_cases hp : predicted ∈ valid_components
  · have heq : get_diagnosis_and_drps predicted driving =
        (predicted, drps_value ((safety_impact_scores.lookup predicted).getD 0)
          (customer_factor_of driving)) := by
      simp [get_diagnosis_and_drps, hp]
    rw [heq]
    obtain ⟨h1, h2⟩ := safety_score_bounds predicted hp
    exact drps_value_bounds _ _ h1 h2 hcf.1 hcf.2
  · have heq : get_diagnosis_and_drps predicted driving =
        ("Brakes", drps_value ((safety_impact_scores.lookup "Brakes").getD 0)
          (customer_factor_of driving)) := by
      simp [get_diagnosis_and_drps, hp]
    rw [heq]
    obtain ⟨h1, h2⟩ := safety_score_bounds "Brakes" (by decide)
    exact drps_value_bounds _ _ h1 h2 hcf.1 hcf.2

/-- C10 counterexample: on the generated maintenance logs and the demo run's
diagnosis `"Brakes"`, the source's recurrence count (matches of the fixed
literal `'C0204'`) is 1, while the count of records matching the run's
diagnosed code is 0 — the two disagree, so the count is not derived from the
current run's diagnosis. -/
theorem C10_counterexample :
    recurrence_count_of generated_maintenance_logs = 1
    ∧ claimed_recurrence_count "Brakes" generated_maintenance_logs = 0
    ∧ recurrence_count_of generated_maintenance_logs
        ≠ claimed_recurrence_count "Brakes" generated_maintenance_logs := by
  refine ⟨by decide, by decide, by decide⟩

/-- C10 amended: the feedback node counts maintenance records whose failure
code equals the fixed constant `'C0204'`, increments the health score by the
fixed delta 50, and writes the recurrence-based insight into
`final_insight`. -/
theorem C10_feedback_node_behaviour (rca_first_id : String)
    (maintenance : List MaintenanceRecord) (current_score : Int)
    (s : WorkflowState) :
    feedback_and_insight_node rca_first_id maintenance current_score s =
      .ok ({ s with final_insight :=
              (perform_rca_and_update_score rca_first_id maintenance
                current_score).1 },
           current_score + 50)
    ∧ (perform_rca_and_update_score rca_first_id maintenance current_score).1 =
        "Failure linked to " ++ rca_first_id ++ ". This is the **"
          ++ toString (recurrence_count_of maintenance + 1)
          ++ "th instance** of this defect recorded across the fleet. Recommend escalating for quality review."
    ∧ recurrence_count_of maintenance =
        (maintenance.filter
          (fun r => r.dtc_code_at_service = some "C0204")).length := by
  exact ⟨rfl, rfl, rfl⟩

end Orchestrator
